import Mathlib

/-!
A shallow embedding of the class-declaration-time schema synthesis in
src/python/lsst/pipe/base/config.py (PipelineTaskConfigMeta.__new__).
Python dictionaries are modelled as association lists with first-match
lookup and replace-or-append insertion; Python type objects receive
explicit numeric identities, and the fresh identity handed to each
declaration models the fact that the builtin type constructor returns a
new object on every call.  Exceptions are modelled with Except, and the
mutable dct namespace is threaded explicitly so that its state at the
moment an exception escapes remains observable.
-/

namespace PipeBase

/-- Association-list lookup, first match wins: the read operation of a
Python dict whose keys are unique. -/
def dictLookup {α : Type} : List (String × α) → String → Option α
  | [], _ => none
  | p :: rest, k => if p.1 = k then some p.2 else dictLookup rest k

/-- Association-list write: replace the first binding of the key in place,
or append a new binding at the end, as Python dict assignment does. -/
def dictInsert {α : Type} : List (String × α) → String → α → List (String × α)
  | [], k, v => [(k, v)]
  | p :: rest, k, v => if p.1 = k then (k, v) :: rest else p :: dictInsert rest k v

/-- Modelled from the spec: a connection descriptor, one value of the
allConnections mapping of a connections-specification type (defined in
connections.py, which is outside the given sources).  Only the default
channel name and the capability tag matter here. -/
structure ConnectionDescriptor where
  name : String
  capabilityKind : String
  deriving DecidableEq, Repr

/-- Modelled from the spec: a connections-specification type, i.e. what
the source calls a PipelineTaskConnections subclass (connections.py is
outside the given sources).  specId models the Python object identity of
the type; subclassOfPipelineTaskConnections models the issubclass test;
defaultTemplates is none exactly when the type has no such attribute. -/
structure ConnectionsSpec where
  specId : Nat
  allConnections : List (String × ConnectionDescriptor)
  defaultTemplates : Option (List (String × String))
  subclassOfPipelineTaskConnections : Bool
  deriving DecidableEq, Repr

/-- A pexConfig.Field of dtype str as written into the synthesized
namespace: its dtype tag, its doc string and its default value. -/
structure StrField where
  dtype : String
  doc : String
  default : String
  deriving DecidableEq, Repr

/-- An entry of the namespace of the synthesized Connections config type:
either a string field or the ConnectionsClass back-reference. -/
inductive NsEntry where
  | field (f : StrField)
  | classRef (s : ConnectionsSpec)
  deriving DecidableEq, Repr

/-- The synthesized Connections config type: a fresh Python type object
(typeId models its object identity) together with its class namespace. -/
structure ConnectionsConfigType where
  typeId : Nat
  ns : List (String × NsEntry)
  deriving DecidableEq, Repr

/-- An entry of the dct namespace of a config class under declaration. -/
inductive DctEntry where
  | configField (dtype : ConnectionsConfigType) (doc : String)
  | configClassRef (t : ConnectionsConfigType)
  | specRef (s : ConnectionsSpec)
  | other (tag : String)
  deriving DecidableEq, Repr

/-- A declared config class: its name and its resolved attribute view,
its own dct first and then the attributes of its bases in declaration
order, the order Python attribute lookup resolves them in. -/
structure ConfigClass where
  name : String
  attrs : List (String × DctEntry)
  deriving DecidableEq, Repr

/-- Plain class construction, the super new call: the attribute view of
the new class is its dct followed by the attributes of its bases in
declaration order. -/
def mkConfigClass (name : String) (bases : List ConfigClass)
    (dct : List (String × DctEntry)) : ConfigClass :=
  ⟨name, dct ++ bases.foldr (fun b acc => b.attrs ++ acc) []⟩

/-- The exceptions the metaclass body can raise: NameError when no
connections class is found, ValueError when it fails the issubclass
check, AttributeError when a base carries a connections attribute of the
wrong shape. -/
inductive DeclError where
  | nameError
  | valueError
  | attributeError
  deriving DecidableEq, Repr

/-- Reading the ConnectionsClass attribute off a synthesized config type,
the expression base.connections.dtype.ConnectionsClass. -/
def connectionsClassAttr (t : ConnectionsConfigType) : Option ConnectionsSpec :=
  match dictLookup t.ns "ConnectionsClass" with
  | some (NsEntry.classRef s) => some s
  | _ => none

/-- The base-scanning loop of the metaclass: the first base with a
connections attribute contributes base.connections.dtype.ConnectionsClass
and the loop breaks; a connections attribute of the wrong shape makes
that expression raise AttributeError. -/
def findBaseSpec : List ConfigClass → Except DeclError (Option ConnectionsSpec)
  | [] => Except.ok none
  | b :: rest =>
    match dictLookup b.attrs "connections" with
    | none => findBaseSpec rest
    | some (DctEntry.configField t _) =>
      match connectionsClassAttr t with
      | some s => Except.ok (some s)
      | none => Except.error DeclError.attributeError
    | some _ => Except.error DeclError.attributeError

/-- Resolution of the pipelineConnections argument: an explicit keyword
argument wins, otherwise the bases are scanned in declaration order. -/
def resolveConnectionsSpec (pipelineConnections : Option ConnectionsSpec)
    (bases : List ConfigClass) : Except DeclError (Option ConnectionsSpec) :=
  match pipelineConnections with
  | some s => Except.ok (some s)
  | none => findBaseSpec bases

/-- Doc string of a synthesized connection-name field, the f-string of
the source. -/
def connectionsDoc (fieldName : String) : String :=
  "name for connection " ++ fieldName

/-- Doc string shared by all synthesized template fields. -/
def templateDocString : String :=
  "Template parameter used to format corresponding field template parameter"

/-- Doc string of the connections ConfigField installed on the owning
class. -/
def connectionsFieldDoc : String :=
  "Configurations describing the connections of the PipelineTask to datatypes"

/-- The namespace entry synthesized for one connection. -/
def connectionEntry (p : String × ConnectionDescriptor) : NsEntry :=
  NsEntry.field ⟨"str", connectionsDoc p.1, p.2.name⟩

/-- The namespace entry synthesized for one template. -/
def templateEntry (p : String × String) : NsEntry :=
  NsEntry.field ⟨"str", templateDocString, p.2⟩

/-- One loop of dict writes: for each pair of the list, in order, write
the entry derived from it under its key. -/
def insertEntries {α β : Type} (f : String × β → α) (l : List (String × β))
    (d : List (String × α)) : List (String × α) :=
  l.foldl (fun ns p => dictInsert ns p.1 (f p)) d

/-- The configConnectionsNamespace the metaclass builds: one field per
connection, then, when the attribute exists, one field per default
template, then the ConnectionsClass back-reference, every write with
Python dict semantics. -/
def synthNamespace (connectionsClass : ConnectionsSpec) : List (String × NsEntry) :=
  dictInsert
    (match connectionsClass.defaultTemplates with
      | none => insertEntries connectionEntry connectionsClass.allConnections []
      | some ts =>
        insertEntries templateEntry ts
          (insertEntries connectionEntry connectionsClass.allConnections []))
    "ConnectionsClass" (NsEntry.classRef connectionsClass)

/-- The three writes into the dct of the class under declaration, given
the fresh identity of the new Connections type. -/
def synthDct (dct : List (String × DctEntry)) (freshId : Nat)
    (connectionsClass : ConnectionsSpec) : List (String × DctEntry) :=
  dictInsert
    (dictInsert
      (dictInsert dct "connections"
        (DctEntry.configField ⟨freshId, synthNamespace connectionsClass⟩ connectionsFieldDoc))
      "ConnectionsConfigClass"
      (DctEntry.configClassRef ⟨freshId, synthNamespace connectionsClass⟩))
    "ConnectionsClass" (DctEntry.specRef connectionsClass)

/-- The body of PipelineTaskConfigMeta.__new__.  Returns the outcome, the
new class or the escaping exception, together with the final state of the
dct dictionary, which the caller passed by reference.  freshId models the
identity of the type object the builtin type constructor allocates for
the Connections class of this declaration. -/
def pipelineTaskConfigMetaNew (freshId : Nat) (name : String)
    (bases : List ConfigClass) (dct : List (String × DctEntry))
    (pipelineConnections : Option ConnectionsSpec) :
    Except DeclError ConfigClass × List (String × DctEntry) :=
  if name = "PipelineTaskConfig" then
    (Except.ok (mkConfigClass name bases dct), dct)
  else
    match resolveConnectionsSpec pipelineConnections bases with
    | Except.error e => (Except.error e, dct)
    | Except.ok none => (Except.error DeclError.nameError, dct)
    | Except.ok (some connectionsClass) =>
      if connectionsClass.subclassOfPipelineTaskConnections = false then
        (Except.error DeclError.valueError, dct)
      else
        (Except.ok (mkConfigClass name bases (synthDct dct freshId connectionsClass)),
          synthDct dct freshId connectionsClass)

/-- The dtype of the connections ConfigField of a declared class. -/
def connectionsDtype (c : ConfigClass) : Option ConnectionsConfigType :=
  match dictLookup c.attrs "connections" with
  | some (DctEntry.configField t _) => some t
  | _ => none

/-- A concrete connections specification with two connections and no
default templates, used by concrete witnesses. -/
def demoSpec : ConnectionsSpec :=
  ⟨0, [("input", ⟨"raw", "Input"⟩), ("output", ⟨"calib", "Output"⟩)], none, true⟩

/-- The class a successful declaration with demoSpec produces. -/
def demoBase : ConfigClass :=
  mkConfigClass "DemoConfig" [] (synthDct [] 1 demoSpec)

/-- A specification whose template t collides with its connection t. -/
def collideSpec : ConnectionsSpec :=
  ⟨2, [("t", ⟨"raw", "Input"⟩)], some [("t", "v")], true⟩

/-- A specification with a template named ConnectionsClass. -/
def ccTemplateSpec : ConnectionsSpec :=
  ⟨3, [("input", ⟨"raw", "Input"⟩)], some [("ConnectionsClass", "v")], true⟩

/-- A specification with both a connection named ConnectionsClass and a
template colliding with a connection. -/
def clashSpec : ConnectionsSpec :=
  ⟨5, [("t", ⟨"raw", "Input"⟩), ("ConnectionsClass", ⟨"x", "Input"⟩)], some [("t", "v")], true⟩

/-- A specification with one connection and one non-colliding template. -/
def demoTemplateSpec : ConnectionsSpec :=
  ⟨6, [("input", ⟨"raw", "Input"⟩)], some [("tmpl", "v")], true⟩

/-- Inserting a binding and reading it back yields the written value. -/
theorem dictLookup_insert {α : Type} (d : List (String × α)) (k : String) (v : α) :
    dictLookup (dictInsert d k v) k = some v := by
  induction d with
  | nil => simp [dictInsert, dictLookup]
  | cons p rest ih =>
    by_cases h : p.1 = k
    · simp [dictInsert, dictLookup, h]
    · simp [dictInsert, dictLookup, h, ih]

/-- Inserting under one key leaves lookups under another key unchanged. -/
theorem dictLookup_insert_ne {α : Type} (d : List (String × α)) (k k' : String) (v : α)
    (h : k' ≠ k) : dictLookup (dictInsert d k' v) k = dictLookup d k := by
  induction d with
  | nil => simp [dictInsert, dictLookup, h]
  | cons p rest ih =>
    by_cases hp : p.1 = k'
    · simp [dictInsert, dictLookup, hp, h]
    · simp [dictInsert, dictLookup, hp, ih]

/-- Lookup over an appended list tries the left part first. -/
theorem dictLookup_append {α : Type} (d1 d2 : List (String × α)) (k : String) :
    dictLookup (d1 ++ d2) k =
      match dictLookup d1 k with
      | some v => some v
      | none => dictLookup d2 k := by
  induction d1 with
  | nil => simp [dictLookup]
  | cons p rest ih =>
    by_cases hp : p.1 = k
    · simp [dictLookup, hp]
    · simp [dictLookup, hp, ih]

/-- A hit in the left part of an appended list decides the lookup. -/
theorem dictLookup_append_left {α : Type} (d1 d2 : List (String × α)) (k : String) (v : α)
    (h : dictLookup d1 k = some v) : dictLookup (d1 ++ d2) k = some v := by
  rw [dictLookup_append, h]

/-- Unfolding one step of a loop of dict writes. -/
theorem insertEntries_cons {α β : Type} (f : String × β → α) (p : String × β)
    (rest : List (String × β)) (d : List (String × α)) :
    insertEntries f (p :: rest) d = insertEntries f rest (dictInsert d p.1 (f p)) := rfl

/-- A loop of dict writes leaves keys it never writes unchanged. -/
theorem insertEntries_lookup_not_mem {α β : Type} (f : String × β → α)
    (l : List (String × β)) (d : List (String × α)) (k : String)
    (h : ∀ p ∈ l, p.1 ≠ k) :
    dictLookup (insertEntries f l d) k = dictLookup d k := by
  induction l generalizing d with
  | nil => rfl
  | cons p rest ih =>
    rw [insertEntries_cons, ih (dictInsert d p.1 (f p)) (fun q hq => h q (by simp [hq]))]
    exact dictLookup_insert_ne d k p.1 (f p) (h p (by simp))

/-- After a loop of dict writes over a list with pairwise distinct keys,
each key of the list reads back its derived entry. -/
theorem insertEntries_lookup_mem {α β : Type} (f : String × β → α)
    (l : List (String × β)) (d : List (String × α)) (k : String) (v : β)
    (hnd : (l.map Prod.fst).Nodup) (hm : (k, v) ∈ l) :
    dictLookup (insertEntries f l d) k = some (f (k, v)) := by
  revert hnd hm
  induction l generalizing d with
  | nil => intro _ hm; cases hm
  | cons p rest ih =>
    intro hnd hm
    rw [List.map_cons] at hnd
    rw [insertEntries_cons]
    rcases List.mem_cons.mp hm with heq | hmem
    · have hp : p = (k, v) := heq.symm
      subst hp
      have hk : ∀ q ∈ rest, q.1 ≠ k := by
        intro q hq hqk
        have hnotin : (k, v).1 ∉ rest.map Prod.fst := (List.nodup_cons.mp hnd).1
        have hqmem : q.1 ∈ rest.map Prod.fst := List.mem_map_of_mem Prod.fst hq
        rw [hqk] at hqmem
        exact hnotin hqmem
      rw [insertEntries_lookup_not_mem f rest _ k hk]
      exact dictLookup_insert d k (f (k, v))
    · exact ih (dictInsert d p.1 (f p)) (List.nodup_cons.mp hnd).2 hmem

/-- The synthesized namespace always ends with the ConnectionsClass
back-reference winning its key. -/
theorem synthNamespace_lookup_cc (s : ConnectionsSpec) :
    dictLookup (synthNamespace s) "ConnectionsClass" = some (NsEntry.classRef s) :=
  dictLookup_insert _ _ _

/-- A connection field survives into the synthesized namespace when its
name collides with no template and is not ConnectionsClass. -/
theorem synthNamespace_lookup_connection (s : ConnectionsSpec) (k : String)
    (desc : ConnectionDescriptor)
    (hnd : (s.allConnections.map Prod.fst).Nodup)
    (hmem : (k, desc) ∈ s.allConnections)
    (hnotTs : ∀ ts, s.defaultTemplates = some ts → ∀ q ∈ ts, q.1 ≠ k)
    (hnotCC : k ≠ "ConnectionsClass") :
    dictLookup (synthNamespace s) k = some (connectionEntry (k, desc)) := by
  unfold synthNamespace
  rw [dictLookup_insert_ne _ _ _ _ (Ne.symm hnotCC)]
  cases hdt : s.defaultTemplates with
  | none =>
    simp only [hdt]
    exact insertEntries_lookup_mem connectionEntry s.allConnections [] k desc hnd hmem
  | some ts =>
    simp only [hdt]
    rw [insertEntries_lookup_not_mem templateEntry ts _ k (hnotTs ts hdt)]
    exact insertEntries_lookup_mem connectionEntry s.allConnections [] k desc hnd hmem

/-- A template field reads back its default from the synthesized
namespace as long as it is not named ConnectionsClass, whatever
connection fields were written before it. -/
theorem synthNamespace_lookup_template (s : ConnectionsSpec) (ts : List (String × String))
    (k v : String)
    (hdt : s.defaultTemplates = some ts)
    (hnd : (ts.map Prod.fst).Nodup)
    (hmem : (k, v) ∈ ts)
    (hnotCC : k ≠ "ConnectionsClass") :
    dictLookup (synthNamespace s) k = some (templateEntry (k, v)) := by
  unfold synthNamespace
  rw [dictLookup_insert_ne _ _ _ _ (Ne.symm hnotCC)]
  simp only [hdt]
  exact insertEntries_lookup_mem templateEntry ts _ k v hnd hmem

/-- With no defaultTemplates attribute, the synthesized namespace holds
nothing beyond the connection fields and the back-reference. -/
theorem synthNamespace_lookup_none (s : ConnectionsSpec) (k : String)
    (hdt : s.defaultTemplates = none)
    (hconn : ∀ p ∈ s.allConnections, p.1 ≠ k)
    (hnotCC : k ≠ "ConnectionsClass") :
    dictLookup (synthNamespace s) k = none := by
  unfold synthNamespace
  rw [dictLookup_insert_ne _ _ _ _ (Ne.symm hnotCC)]
  simp only [hdt]
  rw [insertEntries_lookup_not_mem connectionEntry s.allConnections [] k hconn]
  rfl

/-- Reduction of the metaclass body on the successful path: a non-root
name and a resolved, valid connections class yield the augmented class
and the augmented dct. -/
theorem metaNew_resolved_ok (freshId : Nat) (name : String) (bases : List ConfigClass)
    (dct : List (String × DctEntry)) (kp : Option ConnectionsSpec) (s : ConnectionsSpec)
    (hname : name ≠ "PipelineTaskConfig")
    (hres : resolveConnectionsSpec kp bases = Except.ok (some s))
    (hsub : s.subclassOfPipelineTaskConnections = true) :
    pipelineTaskConfigMetaNew freshId name bases dct kp =
      (Except.ok (mkConfigClass name bases (synthDct dct freshId s)),
        synthDct dct freshId s) := by
  simp [pipelineTaskConfigMetaNew, if_neg hname, hres, hsub]

/-- The augmented dct answers connections with the fresh ConfigField. -/
theorem synthDct_lookup_connections (dct : List (String × DctEntry)) (fid : Nat)
    (s : ConnectionsSpec) :
    dictLookup (synthDct dct fid s) "connections" =
      some (DctEntry.configField ⟨fid, synthNamespace s⟩ connectionsFieldDoc) := by
  unfold synthDct
  rw [dictLookup_insert_ne _ _ _ _ (by decide), dictLookup_insert_ne _ _ _ _ (by decide),
    dictLookup_insert]

/-- The augmented dct answers ConnectionsConfigClass with the fresh type. -/
theorem synthDct_lookup_ccc (dct : List (String × DctEntry)) (fid : Nat)
    (s : ConnectionsSpec) :
    dictLookup (synthDct dct fid s) "ConnectionsConfigClass" =
      some (DctEntry.configClassRef ⟨fid, synthNamespace s⟩) := by
  unfold synthDct
  rw [dictLookup_insert_ne _ _ _ _ (by decide), dictLookup_insert]

/-- The augmented dct answers ConnectionsClass with the specification. -/
theorem synthDct_lookup_cc (dct : List (String × DctEntry)) (fid : Nat)
    (s : ConnectionsSpec) :
    dictLookup (synthDct dct fid s) "ConnectionsClass" =
      some (DctEntry.specRef s) :=
  dictLookup_insert _ _ _

/-- Attribute lookup on a freshly built class hits its own dct first. -/
theorem mkConfigClass_lookup_left (name : String) (bases : List ConfigClass)
    (dct : List (String × DctEntry)) (k : String) (v : DctEntry)
    (h : dictLookup dct k = some v) :
    dictLookup (mkConfigClass name bases dct).attrs k = some v :=
  dictLookup_append_left _ _ _ _ h

/-- The connections dtype of a class built from an augmented dct is the
fresh Connections type. -/
theorem connectionsDtype_synth (name : String) (bases : List ConfigClass)
    (dct : List (String × DctEntry)) (fid : Nat) (s : ConnectionsSpec) :
    connectionsDtype (mkConfigClass name bases (synthDct dct fid s)) =
      some ⟨fid, synthNamespace s⟩ := by
  unfold connectionsDtype
  rw [mkConfigClass_lookup_left _ _ _ _ _ (synthDct_lookup_connections dct fid s)]

/-- The base scan comes back empty exactly when no base has a
connections attribute. -/
theorem findBaseSpec_ok_none_iff (bases : List ConfigClass) :
    findBaseSpec bases = Except.ok none ↔
      ∀ b ∈ bases, dictLookup b.attrs "connections" = none := by
  induction bases with
  | nil => simp [findBaseSpec]
  | cons b rest ih =>
    cases hb : dictLookup b.attrs "connections" with
    | none => simp [findBaseSpec, hb, ih]
    | some e =>
      cases e with
      | configField t doc =>
        cases hcc : connectionsClassAttr t with
        | none => simp [findBaseSpec, hb, hcc]
        | some s => simp [findBaseSpec, hb, hcc]
      | configClassRef t => simp [findBaseSpec, hb]
      | specRef s2 => simp [findBaseSpec, hb]
      | other tag => simp [findBaseSpec, hb]

/-- The only exception the base scan itself raises is AttributeError. -/
theorem findBaseSpec_error_eq (bases : List ConfigClass) (e : DeclError)
    (h : findBaseSpec bases = Except.error e) : e = DeclError.attributeError := by
  induction bases with
  | nil => simp [findBaseSpec] at h
  | cons b rest ih =>
    cases hb : dictLookup b.attrs "connections" with
    | none =>
      simp only [findBaseSpec, hb] at h
      exact ih h
    | some d =>
      cases d with
      | configField t doc =>
        cases hcc : connectionsClassAttr t with
        | none =>
          simp only [findBaseSpec, hb, hcc] at h
          exact ((Except.error.injEq _ _).mp h).symm
        | some s => simp [findBaseSpec, hb, hcc] at h
      | configClassRef t =>
        simp only [findBaseSpec, hb] at h
        exact ((Except.error.injEq _ _).mp h).symm
      | specRef s2 =>
        simp only [findBaseSpec, hb] at h
        exact ((Except.error.injEq _ _).mp h).symm
      | other tag =>
        simp only [findBaseSpec, hb] at h
        exact ((Except.error.injEq _ _).mp h).symm

/-- The only exception resolution itself raises is AttributeError. -/
theorem resolveConnectionsSpec_error_eq (kp : Option ConnectionsSpec)
    (bases : List ConfigClass) (e : DeclError)
    (h : resolveConnectionsSpec kp bases = Except.error e) :
    e = DeclError.attributeError := by
  cases kp with
  | some s => simp [resolveConnectionsSpec] at h
  | none => exact findBaseSpec_error_eq bases e h

/-- Bases without a connections attribute are skipped by the scan. -/
theorem findBaseSpec_append_none (pre bases2 : List ConfigClass)
    (h : ∀ c ∈ pre, dictLookup c.attrs "connections" = none) :
    findBaseSpec (pre ++ bases2) = findBaseSpec bases2 := by
  induction pre with
  | nil => rfl
  | cons c rest ih =>
    have hc := h c (by simp)
    have := ih (fun q hq => h q (by simp [hq]))
    simpa [findBaseSpec, hc] using this

/-- The first base with a well-shaped connections attribute decides the
scan. -/
theorem findBaseSpec_cons_found (b : ConfigClass) (rest : List ConfigClass)
    (t : ConnectionsConfigType) (bdoc : String) (sb : ConnectionsSpec)
    (hb : dictLookup b.attrs "connections" = some (DctEntry.configField t bdoc))
    (hcc : connectionsClassAttr t = some sb) :
    findBaseSpec (b :: rest) = Except.ok (some sb) := by
  simp [findBaseSpec, hb, hcc]

/-- The ConnectionsClass attribute of the fresh Connections type is the
specification it was synthesized from. -/
theorem connectionsClassAttr_synth (fid : Nat) (s : ConnectionsSpec) :
    connectionsClassAttr ⟨fid, synthNamespace s⟩ = some s := by
  unfold connectionsClassAttr
  rw [synthNamespace_lookup_cc]

/-- C8: every successfully declared non-root owning configuration class
exposes a consistent triple: a connections ConfigField, a
ConnectionsConfigClass attribute equal to the dtype of that field, a
ConnectionsClass attribute equal to the resolved specification type, and
the synthesized type itself answers its own ConnectionsClass key with
that same specification. -/
theorem c8_consistent_triple (fid : Nat) (name : String) (bases : List ConfigClass)
    (dct : List (String × DctEntry)) (kp : Option ConnectionsSpec) (cls : ConfigClass)
    (hname : name ≠ "PipelineTaskConfig")
    (hok : (pipelineTaskConfigMetaNew fid name bases dct kp).1 = Except.ok cls) :
    ∃ t s,
      resolveConnectionsSpec kp bases = Except.ok (some s) ∧
      dictLookup cls.attrs "connections" = some (DctEntry.configField t connectionsFieldDoc) ∧
      dictLookup cls.attrs "ConnectionsConfigClass" = some (DctEntry.configClassRef t) ∧
      dictLookup cls.attrs "ConnectionsClass" = some (DctEntry.specRef s) ∧
      connectionsClassAttr t = some s := by
  cases hres : resolveConnectionsSpec kp bases with
  | error e => simp [pipelineTaskConfigMetaNew, if_neg hname, hres] at hok
  | ok o =>
    cases o with
    | none => simp [pipelineTaskConfigMetaNew, if_neg hname, hres] at hok
    | some s =>
      cases hsub : s.subclassOfPipelineTaskConnections with
      | false => simp [pipelineTaskConfigMetaNew, if_neg hname, hres, hsub] at hok
      | true =>
        rw [metaNew_resolved_ok fid name bases dct kp s hname hres hsub] at hok
        have hcls : mkConfigClass name bases (synthDct dct fid s) = cls :=
          (Except.ok.injEq _ _).mp hok
        subst hcls
        refine ⟨⟨fid, synthNamespace s⟩, s, rfl, ?_, ?_, ?_, connectionsClassAttr_synth fid s⟩
        · exact mkConfigClass_lookup_left _ _ _ _ _ (synthDct_lookup_connections dct fid s)
        · exact mkConfigClass_lookup_left _ _ _ _ _ (synthDct_lookup_ccc dct fid s)
        · exact mkConfigClass_lookup_left _ _ _ _ _ (synthDct_lookup_cc dct fid s)

/-- C8 witness: the triple of the concrete demo declaration. -/
theorem c8_witness :
    ∃ t s,
      resolveConnectionsSpec (some demoSpec) [] = Except.ok (some s) ∧
      dictLookup demoBase.attrs "connections" = some (DctEntry.configField t connectionsFieldDoc) ∧
      dictLookup demoBase.attrs "ConnectionsConfigClass" = some (DctEntry.configClassRef t) ∧
      dictLookup demoBase.attrs "ConnectionsClass" = some (DctEntry.specRef s) ∧
      connectionsClassAttr t = some s :=
  c8_consistent_triple 1 "DemoConfig" [] [] (some demoSpec) demoBase (by decide) rfl

/-- C10: whenever the metaclass body escapes with an exception, the dct
namespace of the class under construction is exactly as the caller passed
it: both checks precede every write into it. -/
theorem c10_error_leaves_dct (fid : Nat) (name : String) (bases : List ConfigClass)
    (dct : List (String × DctEntry)) (kp : Option ConnectionsSpec) (e : DeclError)
    (h : (pipelineTaskConfigMetaNew fid name bases dct kp).1 = Except.error e) :
    (pipelineTaskConfigMetaNew fid name bases dct kp).2 = dct := by
  by_cases hname : name = "PipelineTaskConfig"
  · simp [pipelineTaskConfigMetaNew, hname]
  · cases hres : resolveConnectionsSpec kp bases with
    | error e2 => simp [pipelineTaskConfigMetaNew, if_neg hname, hres]
    | ok o =>
      cases o with
      | none => simp [pipelineTaskConfigMetaNew, if_neg hname, hres]
      | some s =>
        cases hsub : s.subclassOfPipelineTaskConnections with
        | false => simp [pipelineTaskConfigMetaNew, if_neg hname, hres, hsub]
        | true =>
          rw [metaNew_resolved_ok fid name bases dct kp s hname hres hsub] at h
          simp at h

/-- C10 witness: a declaration without any connections class fails and
leaves its empty dct empty. -/
theorem c10_witness :
    (pipelineTaskConfigMetaNew 0 "BrokenConfig" [] [] none).2 = [] :=
  c10_error_leaves_dct 0 "BrokenConfig" [] [] none DeclError.nameError rfl

/-- C7: two declarations handed the same specification but distinct
fresh type identities end with distinct synthesized Connections types of
identical namespaces: each owning class owns a fresh type object, never a
shared singleton, so field overrides on one never reach the other. -/
theorem c7_distinct_synthesized_types (fid1 fid2 : Nat) (n1 n2 : String)
    (b1 b2 : List ConfigClass) (d1 d2 : List (String × DctEntry)) (s : ConnectionsSpec)
    (h1 : n1 ≠ "PipelineTaskConfig") (h2 : n2 ≠ "PipelineTaskConfig")
    (hsub : s.subclassOfPipelineTaskConnections = true) (hfid : fid1 ≠ fid2) :
    ∃ cls1 cls2 t1 t2,
      (pipelineTaskConfigMetaNew fid1 n1 b1 d1 (some s)).1 = Except.ok cls1 ∧
      (pipelineTaskConfigMetaNew fid2 n2 b2 d2 (some s)).1 = Except.ok cls2 ∧
      connectionsDtype cls1 = some t1 ∧ connectionsDtype cls2 = some t2 ∧
      t1 ≠ t2 ∧ t1.ns = t2.ns := by
  refine ⟨mkConfigClass n1 b1 (synthDct d1 fid1 s), mkConfigClass n2 b2 (synthDct d2 fid2 s),
    ⟨fid1, synthNamespace s⟩, ⟨fid2, synthNamespace s⟩, ?_, ?_, ?_, ?_, ?_, rfl⟩
  · rw [metaNew_resolved_ok fid1 n1 b1 d1 (some s) s h1 rfl hsub]
  · rw [metaNew_resolved_ok fid2 n2 b2 d2 (some s) s h2 rfl hsub]
  · exact connectionsDtype_synth n1 b1 d1 fid1 s
  · exact connectionsDtype_synth n2 b2 d2 fid2 s
  · intro hEq
    exact hfid (congrArg ConnectionsConfigType.typeId hEq)

/-- C7 witness: two sibling declarations over demoSpec. -/
theorem c7_witness :
    ∃ cls1 cls2 t1 t2,
      (pipelineTaskConfigMetaNew 10 "TaskOneConfig" [] [] (some demoSpec)).1 = Except.ok cls1 ∧
      (pipelineTaskConfigMetaNew 11 "TaskTwoConfig" [] [] (some demoSpec)).1 = Except.ok cls2 ∧
      connectionsDtype cls1 = some t1 ∧ connectionsDtype cls2 = some t2 ∧
      t1 ≠ t2 ∧ t1.ns = t2.ns :=
  c7_distinct_synthesized_types 10 11 "TaskOneConfig" "TaskTwoConfig" [] [] [] [] demoSpec
    (by decide) (by decide) rfl (by decide)

/-- C3: resolution precedence of the connections specification.  An
explicit pipelineConnections argument always wins; without one, the bases
are scanned in declaration order and the first base carrying a
connections field contributes its specification through the
ConnectionsClass back-reference of the value type of that field, so a
subtype declared without an explicit specification ends with the
ConnectionsClass of its first qualifying base. -/
theorem c3_resolution_precedence (fid : Nat) (name : String) (bases : List ConfigClass)
    (dct : List (String × DctEntry)) (hname : name ≠ "PipelineTaskConfig") :
    (∀ s : ConnectionsSpec, s.subclassOfPipelineTaskConnections = true →
      ∃ cls, (pipelineTaskConfigMetaNew fid name bases dct (some s)).1 = Except.ok cls ∧
        dictLookup cls.attrs "ConnectionsClass" = some (DctEntry.specRef s)) ∧
    (∀ pre b rest bdoc t sb, bases = pre ++ b :: rest →
      (∀ c ∈ pre, dictLookup c.attrs "connections" = none) →
      dictLookup b.attrs "connections" = some (DctEntry.configField t bdoc) →
      connectionsClassAttr t = some sb →
      sb.subclassOfPipelineTaskConnections = true →
      ∃ cls, (pipelineTaskConfigMetaNew fid name bases dct none).1 = Except.ok cls ∧
        dictLookup cls.attrs "ConnectionsClass" = some (DctEntry.specRef sb)) := by
  constructor
  · intro s hsub
    refine ⟨mkConfigClass name bases (synthDct dct fid s), ?_, ?_⟩
    · rw [metaNew_resolved_ok fid name bases dct (some s) s hname rfl hsub]
    · exact mkConfigClass_lookup_left _ _ _ _ _ (synthDct_lookup_cc dct fid s)
  · intro pre b rest bdoc t sb hbeq hpre hconn hcc hsub
    have hres : resolveConnectionsSpec none bases = Except.ok (some sb) := by
      show findBaseSpec bases = Except.ok (some sb)
      rw [hbeq, findBaseSpec_append_none pre (b :: rest) hpre,
        findBaseSpec_cons_found b rest t bdoc sb hconn hcc]
    refine ⟨mkConfigClass name bases (synthDct dct fid sb), ?_, ?_⟩
    · rw [metaNew_resolved_ok fid name bases dct none sb hname hres hsub]
    · exact mkConfigClass_lookup_left _ _ _ _ _ (synthDct_lookup_cc dct fid sb)

/-- C3 witness: a child declared without an explicit specification over a
base built from demoSpec inherits demoSpec. -/
theorem c3_witness :
    ∃ cls, (pipelineTaskConfigMetaNew 3 "ChildConfig" [demoBase] [] none).1 = Except.ok cls ∧
      dictLookup cls.attrs "ConnectionsClass" = some (DctEntry.specRef demoSpec) :=
  (c3_resolution_precedence 3 "ChildConfig" [demoBase] [] (by decide)).2
    [] demoBase [] connectionsFieldDoc ⟨1, synthNamespace demoSpec⟩ demoSpec rfl
    (by intro c hc; cases hc) rfl rfl rfl

/-- C4: the missing-connections NameError is raised exactly when the
declaration is not the root, supplies no explicit pipelineConnections and
has no base carrying a connections attribute. -/
theorem c4_missing_connections_iff (fid : Nat) (name : String) (bases : List ConfigClass)
    (dct : List (String × DctEntry)) (kp : Option ConnectionsSpec) :
    (pipelineTaskConfigMetaNew fid name bases dct kp).1 = Except.error DeclError.nameError ↔
      (name ≠ "PipelineTaskConfig" ∧ kp = none ∧
        ∀ b ∈ bases, dictLookup b.attrs "connections" = none) := by
  constructor
  · intro h
    by_cases hname : name = "PipelineTaskConfig"
    · simp [pipelineTaskConfigMetaNew, hname] at h
    · refine ⟨hname, ?_⟩
      cases hres : resolveConnectionsSpec kp bases with
      | error e =>
        have he := resolveConnectionsSpec_error_eq kp bases e hres
        subst he
        simp only [pipelineTaskConfigMetaNew, if_neg hname, hres] at h
        simp at h
      | ok o =>
        cases o with
        | some s =>
          cases hsub : s.subclassOfPipelineTaskConnections with
          | false =>
            simp only [pipelineTaskConfigMetaNew, if_neg hname, hres, hsub] at h
            simp at h
          | true =>
            rw [metaNew_resolved_ok fid name bases dct kp s hname hres hsub] at h
            simp at h
        | none =>
          have hkp : kp = none := by
            cases kp with
            | none => rfl
            | some s => simp [resolveConnectionsSpec] at hres
          subst hkp
          exact ⟨rfl, (findBaseSpec_ok_none_iff bases).mp hres⟩
  · rintro ⟨hname, hkp, hall⟩
    subst hkp
    have hres : resolveConnectionsSpec none bases = Except.ok none :=
      (findBaseSpec_ok_none_iff bases).mpr hall
    simp [pipelineTaskConfigMetaNew, if_neg hname, hres]

/-- C5: the invalid-connections ValueError is raised exactly when the
declaration is not the root and resolution finds a specification that
fails the issubclass check; a specification passing the check never
triggers it. -/
theorem c5_invalid_type_iff (fid : Nat) (name : String) (bases : List ConfigClass)
    (dct : List (String × DctEntry)) (kp : Option ConnectionsSpec) :
    (pipelineTaskConfigMetaNew fid name bases dct kp).1 = Except.error DeclError.valueError ↔
      (name ≠ "PipelineTaskConfig" ∧
        ∃ s, resolveConnectionsSpec kp bases = Except.ok (some s) ∧
          s.subclassOfPipelineTaskConnections = false) := by
  constructor
  · intro h
    by_cases hname : name = "PipelineTaskConfig"
    · simp [pipelineTaskConfigMetaNew, hname] at h
    · refine ⟨hname, ?_⟩
      cases hres : resolveConnectionsSpec kp bases with
      | error e =>
        have he := resolveConnectionsSpec_error_eq kp bases e hres
        subst he
        simp only [pipelineTaskConfigMetaNew, if_neg hname, hres] at h
        simp at h
      | ok o =>
        cases o with
        | none =>
          simp only [pipelineTaskConfigMetaNew, if_neg hname, hres] at h
          simp at h
        | some s =>
          cases hsub : s.subclassOfPipelineTaskConnections with
          | false => exact ⟨s, rfl, hsub⟩
          | true =>
            rw [metaNew_resolved_ok fid name bases dct kp s hname hres hsub] at h
            simp at h
  · rintro ⟨hname, s, hres, hsub⟩
    simp [pipelineTaskConfigMetaNew, if_neg hname, hres, hsub]

/-- C1 counterexample: in collideSpec the template t collides with the
connection t, so the synthesized namespace holds the template field with
default v where the claim demands a connection field defaulting to raw,
the descriptor name. -/
theorem c1_counterexample :
    ∃ cls t,
      (pipelineTaskConfigMetaNew 21 "CollideConfig" [] [] (some collideSpec)).1 =
        Except.ok cls ∧
      connectionsDtype cls = some t ∧
      dictLookup t.ns "t" = some (NsEntry.field ⟨"str", templateDocString, "v"⟩) ∧
      dictLookup t.ns "t" ≠
        some (NsEntry.field ⟨"str", connectionsDoc "t", "raw"⟩) :=
  ⟨mkConfigClass "CollideConfig" [] (synthDct [] 21 collideSpec),
    ⟨21, synthNamespace collideSpec⟩, rfl, rfl, rfl, by decide⟩

/-- C1 (amended): for every connection of the specification whose field
name collides with no default template and is not ConnectionsClass, the
synthesized namespace holds a string field with that name defaulting to
the descriptor name; colliding names are overwritten by the later
writes. -/
theorem c1_connection_name_fields (fid : Nat) (name : String) (bases : List ConfigClass)
    (dct : List (String × DctEntry)) (s : ConnectionsSpec)
    (fieldName : String) (desc : ConnectionDescriptor)
    (hname : name ≠ "PipelineTaskConfig")
    (hsub : s.subclassOfPipelineTaskConnections = true)
    (hnd : (s.allConnections.map Prod.fst).Nodup)
    (hmem : (fieldName, desc) ∈ s.allConnections)
    (hnotTs : ∀ ts, s.defaultTemplates = some ts → ∀ q ∈ ts, q.1 ≠ fieldName)
    (hnotCC : fieldName ≠ "ConnectionsClass") :
    ∃ cls t,
      (pipelineTaskConfigMetaNew fid name bases dct (some s)).1 = Except.ok cls ∧
      connectionsDtype cls = some t ∧
      dictLookup t.ns fieldName =
        some (NsEntry.field ⟨"str", connectionsDoc fieldName, desc.name⟩) := by
  refine ⟨mkConfigClass name bases (synthDct dct fid s), ⟨fid, synthNamespace s⟩,
    ?_, connectionsDtype_synth name bases dct fid s, ?_⟩
  · rw [metaNew_resolved_ok fid name bases dct (some s) s hname rfl hsub]
  · exact synthNamespace_lookup_connection s fieldName desc hnd hmem hnotTs hnotCC

/-- C1 witness: the input connection of demoSpec yields a field
defaulting to raw. -/
theorem c1_witness :
    ∃ cls t,
      (pipelineTaskConfigMetaNew 20 "WitnessConfig" [] [] (some demoSpec)).1 = Except.ok cls ∧
      connectionsDtype cls = some t ∧
      dictLookup t.ns "input" =
        some (NsEntry.field ⟨"str", connectionsDoc "input", "raw"⟩) :=
  c1_connection_name_fields 20 "WitnessConfig" [] [] demoSpec "input" ⟨"raw", "Input"⟩
    (by decide) rfl (by decide) (by decide) (by intro ts h; simp [demoSpec] at h) (by decide)

/-- C2 counterexample: in ccTemplateSpec a template is named
ConnectionsClass, so the synthesized namespace answers that key with the
back-reference where the claim demands a string field defaulting to v. -/
theorem c2_counterexample :
    ∃ cls t,
      (pipelineTaskConfigMetaNew 23 "CcTemplateConfig" [] [] (some ccTemplateSpec)).1 =
        Except.ok cls ∧
      connectionsDtype cls = some t ∧
      dictLookup t.ns "ConnectionsClass" = some (NsEntry.classRef ccTemplateSpec) ∧
      dictLookup t.ns "ConnectionsClass" ≠
        some (NsEntry.field ⟨"str", templateDocString, "v"⟩) :=
  ⟨mkConfigClass "CcTemplateConfig" [] (synthDct [] 23 ccTemplateSpec),
    ⟨23, synthNamespace ccTemplateSpec⟩, rfl, rfl, rfl, by decide⟩

/-- C2 (amended): every default template except one named
ConnectionsClass becomes a string field defaulting to its template value,
and with no defaultTemplates attribute the synthesized namespace holds
nothing beyond the connection fields and the back-reference. -/
theorem c2_template_fields (fid : Nat) (name : String) (bases : List ConfigClass)
    (dct : List (String × DctEntry)) (s : ConnectionsSpec)
    (hname : name ≠ "PipelineTaskConfig")
    (hsub : s.subclassOfPipelineTaskConnections = true) :
    (∀ ts templateName v, s.defaultTemplates = some ts →
      (ts.map Prod.fst).Nodup → (templateName, v) ∈ ts →
      templateName ≠ "ConnectionsClass" →
      ∃ cls t,
        (pipelineTaskConfigMetaNew fid name bases dct (some s)).1 = Except.ok cls ∧
        connectionsDtype cls = some t ∧
        dictLookup t.ns templateName =
          some (NsEntry.field ⟨"str", templateDocString, v⟩)) ∧
    (s.defaultTemplates = none → ∀ k, (∀ p ∈ s.allConnections, p.1 ≠ k) →
      k ≠ "ConnectionsClass" →
      ∃ cls t,
        (pipelineTaskConfigMetaNew fid name bases dct (some s)).1 = Except.ok cls ∧
        connectionsDtype cls = some t ∧
        dictLookup t.ns k = none) := by
  constructor
  · intro ts templateName v hdt hnd hmem hnotCC
    refine ⟨mkConfigClass name bases (synthDct dct fid s), ⟨fid, synthNamespace s⟩,
      ?_, connectionsDtype_synth name bases dct fid s, ?_⟩
    · rw [metaNew_resolved_ok fid name bases dct (some s) s hname rfl hsub]
    · exact synthNamespace_lookup_template s ts templateName v hdt hnd hmem hnotCC
  · intro hdt k hconn hnotCC
    refine ⟨mkConfigClass name bases (synthDct dct fid s), ⟨fid, synthNamespace s⟩,
      ?_, connectionsDtype_synth name bases dct fid s, ?_⟩
    · rw [metaNew_resolved_ok fid name bases dct (some s) s hname rfl hsub]
    · exact synthNamespace_lookup_none s k hdt hconn hnotCC

/-- C2 witness: the tmpl template of demoTemplateSpec yields a field
defaulting to v. -/
theorem c2_witness :
    ∃ cls t,
      (pipelineTaskConfigMetaNew 22 "TemplateConfig" [] [] (some demoTemplateSpec)).1 =
        Except.ok cls ∧
      connectionsDtype cls = some t ∧
      dictLookup t.ns "tmpl" = some (NsEntry.field ⟨"str", templateDocString, "v"⟩) :=
  (c2_template_fields 22 "TemplateConfig" [] [] demoTemplateSpec (by decide) rfl).1
    [("tmpl", "v")] "tmpl" "v" rfl (by decide) (by decide) (by decide)

/-- C9: namespace collisions resolve by last write wins and raise
nothing: a template sharing its name with a connection replaces the
connection field, and the ConnectionsClass key always ends holding the
back-reference, written last. -/
theorem c9_last_write_wins (fid : Nat) (name : String) (bases : List ConfigClass)
    (dct : List (String × DctEntry)) (s : ConnectionsSpec)
    (ts : List (String × String)) (k v : String) (desc : ConnectionDescriptor)
    (hname : name ≠ "PipelineTaskConfig")
    (hsub : s.subclassOfPipelineTaskConnections = true)
    (hdt : s.defaultTemplates = some ts)
    (hnd : (ts.map Prod.fst).Nodup)
    (_hmemc : (k, desc) ∈ s.allConnections)
    (hmemt : (k, v) ∈ ts)
    (hnotCC : k ≠ "ConnectionsClass") :
    ∃ cls t,
      (pipelineTaskConfigMetaNew fid name bases dct (some s)).1 = Except.ok cls ∧
      connectionsDtype cls = some t ∧
      dictLookup t.ns k = some (NsEntry.field ⟨"str", templateDocString, v⟩) ∧
      dictLookup t.ns "ConnectionsClass" = some (NsEntry.classRef s) := by
  refine ⟨mkConfigClass name bases (synthDct dct fid s), ⟨fid, synthNamespace s⟩,
    ?_, connectionsDtype_synth name bases dct fid s, ?_, synthNamespace_lookup_cc s⟩
  · rw [metaNew_resolved_ok fid name bases dct (some s) s hname rfl hsub]
  · exact synthNamespace_lookup_template s ts k v hdt hnd hmemt hnotCC

/-- C9 witness: clashSpec has a connection t, a template t and a
connection named ConnectionsClass; the declaration succeeds, t reads the
template default and ConnectionsClass reads the back-reference. -/
theorem c9_witness :
    ∃ cls t,
      (pipelineTaskConfigMetaNew 24 "ClashConfig" [] [] (some clashSpec)).1 = Except.ok cls ∧
      connectionsDtype cls = some t ∧
      dictLookup t.ns "t" = some (NsEntry.field ⟨"str", templateDocString, "v"⟩) ∧
      dictLookup t.ns "ConnectionsClass" = some (NsEntry.classRef clashSpec) :=
  c9_last_write_wins 24 "ClashConfig" [] [] clashSpec [("t", "v")] "t" "v" ⟨"raw", "Input"⟩
    (by decide) rfl rfl (by decide) (by decide) (by decide) (by decide)

/-- C6 counterexample: demoBase is a successfully declared configuration
class carrying a connections field, so a class declared over it is
derived from the root; yet because that declaration bears the name
PipelineTaskConfig, the guard skips it: no resolution, no validation, no
synthesized attribute reaches its dct. -/
theorem c6_counterexample :
    (pipelineTaskConfigMetaNew 1 "DemoConfig" [] [] (some demoSpec)).1 = Except.ok demoBase ∧
    (dictLookup demoBase.attrs "connections").isSome = true ∧
    pipelineTaskConfigMetaNew 2 "PipelineTaskConfig" [demoBase] [] none =
      (Except.ok (mkConfigClass "PipelineTaskConfig" [demoBase] []), []) ∧
    dictLookup (pipelineTaskConfigMetaNew 2 "PipelineTaskConfig" [demoBase] [] none).2
      "ConnectionsConfigClass" = none :=
  ⟨rfl, rfl, rfl, rfl⟩

/-- C6 (amended): the trigger of the synthesis is the name guard of the
metaclass, not derivation: a declaration named PipelineTaskConfig runs no
resolution, no validation and writes nothing into its dct, whatever its
bases or keyword arguments; every declaration under any other name runs
the synthesis, ending either in an exception or with the synthesized
attributes written into its dct. -/
theorem c6_name_guarded_trigger (fid : Nat) (name : String) (bases : List ConfigClass)
    (dct : List (String × DctEntry)) (kp : Option ConnectionsSpec) :
    (name = "PipelineTaskConfig" →
      pipelineTaskConfigMetaNew fid name bases dct kp =
        (Except.ok (mkConfigClass name bases dct), dct)) ∧
    (name ≠ "PipelineTaskConfig" →
      (∃ e, (pipelineTaskConfigMetaNew fid name bases dct kp).1 = Except.error e) ∨
      ∃ t, dictLookup (pipelineTaskConfigMetaNew fid name bases dct kp).2
        "ConnectionsConfigClass" = some (DctEntry.configClassRef t)) := by
  constructor
  · intro hname
    simp [pipelineTaskConfigMetaNew, hname]
  · intro hname
    cases hres : resolveConnectionsSpec kp bases with
    | error e =>
      exact Or.inl ⟨e, by simp [pipelineTaskConfigMetaNew, if_neg hname, hres]⟩
    | ok o =>
      cases o with
      | none =>
        exact Or.inl ⟨DeclError.nameError,
          by simp [pipelineTaskConfigMetaNew, if_neg hname, hres]⟩
      | some s =>
        cases hsub : s.subclassOfPipelineTaskConnections with
        | false =>
          exact Or.inl ⟨DeclError.valueError,
            by simp [pipelineTaskConfigMetaNew, if_neg hname, hres, hsub]⟩
        | true =>
          refine Or.inr ⟨⟨fid, synthNamespace s⟩, ?_⟩
          rw [metaNew_resolved_ok fid name bases dct kp s hname hres hsub]
          exact synthDct_lookup_ccc dct fid s

end PipeBase
